import Mathlib

/-!
Verification of the monitor-selection logic of the screenshot tool
(src/screen/src/main.rs of the unique-matcher repository).

Modelling conventions:
* Strings are modelled as `List Char`.  The two search patterns `(#` and `)`
  consist of single ASCII characters, so the byte positions returned by
  `str::rfind` in the source always sit on character boundaries and are in
  order-preserving bijection with character positions; working at character
  granularity is observationally equivalent for this code.
* `rfind s pat` returns the greatest position at which `pat` occurs in `s`,
  mirroring `str::rfind`.
* Machine integers are modelled as `Nat` / `Int` with explicit `% 2 ^ 64`
  (usize) and `% 2 ^ 32` (i32) where wrapping matters; `usize` is taken to
  be 64 bits wide, as on the usual targets of this tool.
* Library calls that the source unwraps are modelled by `RunResult`, whose
  `crash` constructor records that the program aborts abnormally.
* The ini crate (an external collaborator) is modelled as an association
  list of (section, key, value) entries; `get_from_or` returns the first
  matching value or the supplied default, as the crate does.
-/

/-- Model of `str::rfind`: the greatest index `i` such that `pat` starts at
position `i` of `s` (`some s.length` for the empty pattern, as in Rust). -/
def rfind (s pat : List Char) : Option Nat :=
  match s with
  | [] => if pat.isEmpty then some 0 else none
  | c :: rest =>
    match rfind rest pat with
    | some i => some (i + 1)
    | none => if pat.isPrefixOf (c :: rest) then some 0 else none

/-- A leading segment is never longer than the whole list. -/
theorem isPrefixOf_length_le (p l : List Char) (h : p.isPrefixOf l = true) :
    p.length ≤ l.length := by
  induction p generalizing l with
  | nil => simp
  | cons a as ih =>
    cases l with
    | nil => simp [List.isPrefixOf] at h
    | cons b bs =>
      simp only [List.isPrefixOf, Bool.and_eq_true] at h
      simpa [List.length_cons] using ih bs h.2

/-- A successful `rfind` returns a position within the string at which the
pattern really occurs. -/
theorem rfind_spec (s pat : List Char) (i : Nat) (h : rfind s pat = some i) :
    i ≤ s.length ∧ pat.isPrefixOf (s.drop i) = true := by
  induction s generalizing i with
  | nil =>
    cases pat with
    | nil =>
      simp only [rfind, List.isEmpty_nil, if_pos, Option.some.injEq] at h
      subst h
      exact ⟨Nat.le_refl 0, by simp [List.isPrefixOf]⟩
    | cons c cs => simp [rfind, List.isEmpty] at h
  | cons c rest ih =>
    simp only [rfind] at h
    cases hr : rfind rest pat with
    | some j =>
      rw [hr] at h
      cases h
      have hj := ih j hr
      refine ⟨by simpa [List.length_cons] using Nat.succ_le_succ hj.1, ?_⟩
      simpa [List.drop_succ_cons] using hj.2
    | none =>
      rw [hr] at h
      cases hp : pat.isPrefixOf (c :: rest) with
      | true =>
        simp only [hp, if_pos] at h
        cases h
        exact ⟨Nat.zero_le _, by simpa using hp⟩
      | false => simp [hp] at h

/-- A failed `rfind` means the pattern occurs nowhere in the string. -/
theorem rfind_none_drop (s pat : List Char) (h : rfind s pat = none) :
    ∀ i, pat.isPrefixOf (s.drop i) = false := by
  induction s with
  | nil =>
    intro i
    cases pat with
    | nil => simp [rfind, List.isEmpty] at h
    | cons c cs => simp [List.isPrefixOf, List.drop_nil]
  | cons c rest ih =>
    intro i
    simp only [rfind] at h
    cases hr : rfind rest pat with
    | some j => simp [hr] at h
    | none =>
      rw [hr] at h
      cases hp : pat.isPrefixOf (c :: rest) with
      | true => simp [hp] at h
      | false =>
        cases i with
        | zero => simpa using hp
        | succ k => simpa [List.drop_succ_cons] using ih hr k

/-- Prepending any list shifts a successful rightmost search by its length. -/
theorem rfind_append_right (s t pat : List Char) (i : Nat)
    (h : rfind t pat = some i) : rfind (s ++ t) pat = some (s.length + i) := by
  induction s with
  | nil => simpa using h
  | cons c s' ih =>
    rw [List.cons_append]
    show (match rfind (s' ++ t) pat with
      | some j => some (j + 1)
      | none => if pat.isPrefixOf (c :: (s' ++ t)) then some 0 else none) =
      some ((c :: s').length + i)
    rw [ih]
    simp [List.length_cons]
    omega

/-- Consing a character on a pattern-free string: the search succeeds at 0
exactly when the pattern now starts at the front. -/
theorem rfind_cons_none (c : Char) (s pat : List Char)
    (h1 : rfind s pat = none) (h2 : pat.isPrefixOf (c :: s) = false) :
    rfind (c :: s) pat = none := by
  simp [rfind, h1, h2]

/-- If the tail is pattern-free and the pattern starts at the front, the
rightmost match is at position 0. -/
theorem rfind_cons_some0 (c : Char) (s pat : List Char)
    (h1 : rfind s pat = none) (h2 : pat.isPrefixOf (c :: s) = true) :
    rfind (c :: s) pat = some 0 := by
  simp [rfind, h1, h2]

/-- Numeric value of a digit string, most significant digit first
(the accumulator loop of integer parsing; 48 is the code of the digit 0). -/
def digitsToNat (s : List Char) : Nat :=
  s.foldl (fun acc c => acc * 10 + (c.toNat - 48)) 0

/-- Strip one optional leading plus sign, as `usize::from_str` does for
unsigned integer types (a minus sign is not accepted for `usize`). -/
def numBody (s : List Char) : List Char :=
  match s with
  | c :: rest => if c = '+' then rest else s
  | [] => s

/-- Model of `str::parse::<usize>()`: an optional plus sign followed by one
or more ASCII digits, rejected when the value exceeds `usize::MAX`
(usize is 64 bits wide here). -/
def parseUsize (s : List Char) : Option Nat :=
  if !(numBody s).isEmpty && (numBody s).all Char.isDigit then
    if digitsToNat (numBody s) < 2 ^ 64 then some (digitsToNat (numBody s))
    else none
  else none

/-- Shape of an accepted `usize` numeral, ignoring the range check: an
optional plus sign followed by a nonempty run of ASCII digits. -/
def usizeShape (s : List Char) : Bool :=
  !(numBody s).isEmpty && (numBody s).all Char.isDigit

/-- Model of `str::parse::<i32>()`: an optional plus or minus sign followed
by one or more ASCII digits, rejected outside the `i32` range. -/
def parseI32 (s : List Char) : Option Int :=
  let p : Bool × List Char :=
    match s with
    | c :: rest =>
      if c = '-' then (true, rest)
      else if c = '+' then (false, rest)
      else (false, s)
    | [] => (false, s)
  if !p.2.isEmpty && p.2.all Char.isDigit then
    let v : Int := if p.1 then -(digitsToNat p.2 : Int) else (digitsToNat p.2 : Int)
    if -(2 ^ 31) ≤ v ∧ v < 2 ^ 31 then some v else none
  else none

/-- Model of checked slicing `s.get(i..j)`: the characters of `s` from
position `i` (inclusive) to `j` (exclusive), or `none` when the bounds are
inconsistent or past the end.  The character-boundary condition of the byte
version is vacuous here because (see the module comment) the positions fed
to it always sit on character boundaries. -/
def strGet (s : List Char) (i j : Nat) : Option (List Char) :=
  if i ≤ j ∧ j ≤ s.length then some ((s.drop i).take (j - i)) else none

/-- The two-character opening marker searched by the parser. -/
def opMark : List Char := ['(', '#']

/-- The one-character closing marker searched by the parser. -/
def clMark : List Char := [')']

/-- The adapter-string parsing of `active_monitor_number_from_poe_config`
(main.rs lines 98 to 112): rightmost `(#`, rightmost `)`, checked slice
strictly between them, then `usize` parsing.  Every step that fails makes
the whole function return `none`. -/
def extract_monitor_index (adapter_name : List Char) : Option Nat :=
  match rfind adapter_name opMark with
  | none => none
  | some start =>
    match rfind adapter_name clMark with
    | none => none
    | some stop =>
      match strGet adapter_name (start + 2) stop with
      | none => none
      | some substr => parseUsize substr

/-- Characters with distinct digit status are distinct under `==`. -/
theorem beq_eq_false_of_digit_mismatch (c d : Char) (hc : c.isDigit = false)
    (hd : d.isDigit = true) : (c == d) = false := by
  cases hb : (c == d) with
  | false => rfl
  | true =>
    have : c = d := eq_of_beq hb
    rw [this, hd] at hc
    exact absurd hc (by simp)

/-- A digit never opens an occurrence of `(#`. -/
theorem rfind_op_cons_digit_none (d : Char) (s : List Char)
    (hd : d.isDigit = true) (h : rfind s opMark = none) :
    rfind (d :: s) opMark = none := by
  apply rfind_cons_none d s opMark h
  show (['(', '#'].isPrefixOf (d :: s)) = false
  simp only [List.isPrefixOf, Bool.and_eq_false_iff]
  left
  exact beq_eq_false_of_digit_mismatch '(' d (by decide) hd

/-- A digit never opens an occurrence of `)`. -/
theorem rfind_cl_cons_digit_none (d : Char) (s : List Char)
    (hd : d.isDigit = true) (h : rfind s clMark = none) :
    rfind (d :: s) clMark = none := by
  apply rfind_cons_none d s clMark h
  show ([')'].isPrefixOf (d :: s)) = false
  simp only [List.isPrefixOf, Bool.and_eq_false_iff]
  left
  exact beq_eq_false_of_digit_mismatch ')' d (by decide) hd

/-- Prepending a run of digits cannot create an occurrence of `(#`. -/
theorem rfind_op_digits_none (N s : List Char) (hN : N.all Char.isDigit = true)
    (h : rfind s opMark = none) : rfind (N ++ s) opMark = none := by
  induction N with
  | nil => simpa using h
  | cons d N' ih =>
    simp only [List.all_cons, Bool.and_eq_true] at hN
    exact rfind_op_cons_digit_none d (N' ++ s) hN.1 (ih hN.2)

/-- Prepending a run of digits cannot create an occurrence of `)`. -/
theorem rfind_cl_digits_none (N s : List Char) (hN : N.all Char.isDigit = true)
    (h : rfind s clMark = none) : rfind (N ++ s) clMark = none := by
  induction N with
  | nil => simpa using h
  | cons d N' ih =>
    simp only [List.all_cons, Bool.and_eq_true] at hN
    exact rfind_cl_cons_digit_none d (N' ++ s) hN.1 (ih hN.2)

/-- A digit is not a plus sign. -/
theorem ne_plus_of_isDigit (c : Char) (h : c.isDigit = true) : ¬(c = '+') := by
  intro hc
  rw [hc] at h
  exact absurd h (by decide)

/-- On a nonempty all-digit string whose value fits in `usize`,
`parseUsize` returns exactly the numeric value of the digits. -/
theorem parseUsize_all_digits (N : List Char) (h1 : N ≠ [])
    (h2 : N.all Char.isDigit = true) (h3 : digitsToNat N < 2 ^ 64) :
    parseUsize N = some (digitsToNat N) := by
  have hbody : numBody N = N := by
    cases N with
    | nil => rfl
    | cons c rest =>
      have hc : c.isDigit = true := by
        simp only [List.all_cons, Bool.and_eq_true] at h2
        exact h2.1
      simp [numBody, ne_plus_of_isDigit c hc]
  simp [parseUsize, hbody, h1, h2]
  exact h3

/-- The diagnostic lines the program can print before announcing the chosen
screen id.  `poePathMissing` stands for the line printed on main.rs line 91
when the external config file does not exist; `autoDetectFallback` stands
for the line printed on main.rs line 31 when auto-detection found nothing
and the id defaults to 0. -/
inductive Diag where
  | poePathMissing : Diag
  | autoDetectFallback : Diag
deriving DecidableEq, BEq

/-- An ini file as seen through the ini crate: a list of
(section, key, value) entries. -/
structure IniFile where
  entries : List (Option String × String × String)
deriving DecidableEq

/-- Value of the first entry of the given section and key, if any. -/
def iniLookup (ini : IniFile) (sec : Option String) (key : String) :
    Option String :=
  (ini.entries.find? (fun e => e.1 == sec && e.2.1 == key)).map (fun e => e.2.2)

/-- Model of the ini crate method `get_from_or`: the stored value, or the
supplied default when the section or key is absent. -/
def get_from_or (ini : IniFile) (sec : Option String) (key : String)
    (dflt : String) : String :=
  (iniLookup ini sec key).getD dflt

/-- Outcome of running a piece of the program: a value, or an abnormal
abort caused by an `unwrap` on a failed operation. -/
inductive RunResult (α : Type) where
  | ok : α → RunResult α
  | crash : RunResult α
deriving DecidableEq

/-- Section name of the local configuration option. -/
def sectScreenshot : String := "screenshot"

/-- Key of the local configuration option. -/
def keyScreen : String := "screen"

/-- Default raw value of the local option when section or key is absent. -/
def defaultScreenStr : String := "0"

/-- Section name of the external display setting. -/
def sectDisplay : String := "DISPLAY"

/-- Key of the external display setting. -/
def keyAdapterName : String := "adapter_name"

/-- Default adapter string when the external key is absent. -/
def defaultAdapterName : String := "(#0)"

/-- Model of `active_monitor_number_from_poe_config` (main.rs lines
84 to 112), given the observable state of the external configuration:
whether the file exists, and the ini parse result when it does.
The file-missing case prints a diagnostic and returns `none`
(main.rs lines 89 to 92); an existing but unparsable file hits
`Ini::load_from_file(..).unwrap()` on line 94 and aborts; otherwise the
`adapter_name` value of section `DISPLAY` (default `(#0)`) is parsed by
`extract_monitor_index`. -/
def active_monitor_number_from_poe_config (poeConfigExists : Bool)
    (poeIniLoad : Option IniFile) : RunResult (List Diag × Option Nat) :=
  if poeConfigExists then
    match poeIniLoad with
    | none => RunResult.crash
    | some ini =>
      RunResult.ok ([],
        extract_monitor_index
          (get_from_or ini (some sectDisplay) keyAdapterName
            defaultAdapterName).data)
  else RunResult.ok ([Diag.poePathMissing], none)

/-- The local configuration read of main.rs lines 17 to 23:
`localIniLoad = none` models any `Ini::load_from_file` error (missing or
unreadable file), which defaults to 0; a loaded file yields the raw value
of `screenshot.screen` (default the string 0), whose failed `i32` parse
hits the `unwrap()` on line 21 and aborts. -/
def localScreenId (localIniLoad : Option IniFile) : RunResult Int :=
  match localIniLoad with
  | some ini =>
    match parseI32 (get_from_or ini (some sectScreenshot) keyScreen
        defaultScreenStr).data with
    | some v => RunResult.ok v
    | none => RunResult.crash
  | none => RunResult.ok 0

/-- Wrapping cast `usize as i32` (used on main.rs line 29 for the
auto-detected value). -/
def i32_of_usize (n : Nat) : Int :=
  if n % 2 ^ 32 < 2 ^ 31 then ((n % 2 ^ 32 : Nat) : Int)
  else ((n % 2 ^ 32 : Nat) : Int) - 2 ^ 32

/-- The Configuration Resolver (main.rs lines 17 to 35): the local value,
with auto-detection when it is -1.  `documentDirFound = false` models
`dirs_next::document_dir()` returning `None`, in which case the
`poe_config_path().unwrap()` on line 27 aborts.  A failed auto-detection
appends the fallback diagnostic and defaults to 0. -/
def resolve_screen_id (localIniLoad : Option IniFile)
    (documentDirFound poeConfigExists : Bool) (poeIniLoad : Option IniFile) :
    RunResult (Int × List Diag) :=
  match localScreenId localIniLoad with
  | RunResult.crash => RunResult.crash
  | RunResult.ok sid =>
    if sid = -1 then
      if documentDirFound then
        match active_monitor_number_from_poe_config poeConfigExists poeIniLoad with
        | RunResult.crash => RunResult.crash
        | RunResult.ok (ds, some val) => RunResult.ok (i32_of_usize val, ds)
        | RunResult.ok (ds, none) =>
          RunResult.ok (0, ds ++ [Diag.autoDetectFallback])
      else RunResult.crash
    else RunResult.ok (sid, [])

/-- Wrapping cast `i32 as usize` (used on main.rs lines 50 and 58):
sign-extension to 64 bits, i.e. reduction modulo `2 ^ 64`. -/
def usize_of_i32 (v : Int) : Nat := (v % 2 ^ 64).toNat

/-- What the capture step does with the resolved id: either the
out-of-range report (with the bounds it prints), or an access to
`screens[idx]` followed by the actual capture. -/
inductive CaptureOutcome where
  | outOfRange : Nat → Nat → CaptureOutcome
  | captured : Nat → CaptureOutcome
deriving DecidableEq

/-- The guard of the capture step (main.rs lines 50 to 58): compare
`screen_id as usize` against the number of enumerated monitors; when out of
range, print the error citing ids 0 to `screens.len() - 1` (usize
subtraction, modelled wrapping) and skip the capture, otherwise index the
monitor list.  The capture and file write behind the guard are external effects
and out of scope. -/
def capture_step (screen_id : Int) (numScreens : Nat) : CaptureOutcome :=
  if numScreens ≤ usize_of_i32 screen_id then
    CaptureOutcome.outOfRange 0 ((numScreens + (2 ^ 64 - 1)) % 2 ^ 64)
  else
    CaptureOutcome.captured (usize_of_i32 screen_id)

/-- Dropping past an appended front list drops into the back list. -/
theorem drop_append_add (a l : List Char) (n : Nat) :
    (a ++ l).drop (a.length + n) = l.drop n := by
  induction a with
  | nil => simp
  | cons c a' ih => simp [Nat.succ_add, ih]

/-- Taking exactly the front list of an append returns it. -/
theorem take_append_len (N l : List Char) : (N ++ l).take N.length = N := by
  induction N with
  | nil => simp
  | cons d N' ih => simp [ih]

/-- One unfolding step of `List.isPrefixOf` on two nonempty lists. -/
theorem isPrefixOf_cons₂ (c d : Char) (p l : List Char) :
    (c :: p).isPrefixOf (d :: l) = ((c == d) && p.isPrefixOf l) := rfl

/-- The empty list is a leading segment of every list. -/
theorem nil_isPrefixOf (l : List Char) : ([] : List Char).isPrefixOf l = true := by
  cases l <;> rfl

/-- Claim C1 (amended): for every adapter string of the form
`a ++ (# ++ N ++ ) ++ b` where `N` is a nonempty digit run, the suffix `b`
contains neither a `(#` marker nor a `)` (so that the displayed group is
the rightmost one closed by the rightmost `)`), and the value of `N` fits
in `usize`, `extract_monitor_index` returns exactly the integer `N`. -/
theorem c1_extract_rightmost (a N b : List Char) (h1 : N ≠ [])
    (h2 : N.all Char.isDigit = true) (hb1 : rfind b opMark = none)
    (hb2 : rfind b clMark = none) (h3 : digitsToNat N < 2 ^ 64) :
    extract_monitor_index (a ++ '(' :: '#' :: (N ++ ')' :: b)) =
      some (digitsToNat N) := by
  have t1 : rfind (')' :: b) opMark = none :=
    rfind_cons_none _ _ _ hb1
      (by simp [opMark, isPrefixOf_cons₂, show (('(' : Char) == ')') = false by decide])
  have t2 : rfind (N ++ ')' :: b) opMark = none :=
    rfind_op_digits_none N _ h2 t1
  have t3 : rfind ('#' :: (N ++ ')' :: b)) opMark = none :=
    rfind_cons_none _ _ _ t2
      (by simp [opMark, isPrefixOf_cons₂, show (('(' : Char) == '#') = false by decide])
  have t4 : rfind ('(' :: '#' :: (N ++ ')' :: b)) opMark = some 0 :=
    rfind_cons_some0 _ _ _ t3
      (by simp [opMark, isPrefixOf_cons₂, nil_isPrefixOf])
  have hstart : rfind (a ++ '(' :: '#' :: (N ++ ')' :: b)) opMark =
      some a.length := by
    have h0 := rfind_append_right a _ opMark 0 t4
    rw [Nat.add_zero] at h0
    exact h0
  have u1 : rfind (')' :: b) clMark = some 0 :=
    rfind_cons_some0 _ _ _ hb2
      (by simp [clMark, isPrefixOf_cons₂, nil_isPrefixOf])
  have u2 : rfind (N ++ ')' :: b) clMark = some N.length := by
    have h0 := rfind_append_right N _ clMark 0 u1
    rw [Nat.add_zero] at h0
    exact h0
  have u3 : rfind ('(' :: '#' :: (N ++ ')' :: b)) clMark =
      some (2 + N.length) :=
    rfind_append_right ['(', '#'] _ clMark N.length u2
  have hstop : rfind (a ++ '(' :: '#' :: (N ++ ')' :: b)) clMark =
      some (a.length + (2 + N.length)) :=
    rfind_append_right a _ clMark _ u3
  have hlen : (a ++ '(' :: '#' :: (N ++ ')' :: b)).length =
      a.length + 2 + N.length + 1 + b.length := by
    simp [List.length_append, List.length_cons]
    omega
  have hcond : a.length + 2 ≤ a.length + (2 + N.length) ∧
      a.length + (2 + N.length) ≤ (a ++ '(' :: '#' :: (N ++ ')' :: b)).length := by
    constructor
    · omega
    · rw [hlen]; omega
  have hdrop : (a ++ '(' :: '#' :: (N ++ ')' :: b)).drop (a.length + 2) =
      N ++ ')' :: b := by
    exact drop_append_add a ('(' :: '#' :: (N ++ ')' :: b)) 2
  have hsub : a.length + (2 + N.length) - (a.length + 2) = N.length := by omega
  have hslice : strGet (a ++ '(' :: '#' :: (N ++ ')' :: b)) (a.length + 2)
      (a.length + (2 + N.length)) = some N := by
    unfold strGet
    rw [if_pos hcond, hdrop, hsub, take_append_len]
  unfold extract_monitor_index
  rw [hstart, hstop]
  show (match strGet (a ++ '(' :: '#' :: (N ++ ')' :: b)) (a.length + 2)
      (a.length + (2 + N.length)) with
    | none => none
    | some substr => parseUsize substr) = some (digitsToNat N)
  rw [hslice]
  exact parseUsize_all_digits N h1 h2 h3

/-- The digits of `2 ^ 64`, the smallest natural number that overflows a
64-bit `usize` parse. -/
def overflowDigits : List Char :=
  ['1', '8', '4', '4', '6', '7', '4', '4', '0', '7', '3', '7', '0', '9',
   '5', '5', '1', '6', '1', '6']

/-- The adapter string whose rightmost group holds exactly those digits. -/
def overflowAdapter : List Char := '(' :: '#' :: (overflowDigits ++ [')'])

/-- Claim C1, counterexample: the adapter string `(#18446744073709551616)`
satisfies every hypothesis of the claim (the group is rightmost and its
digits are a nonempty digit run with value `2 ^ 64`), yet
`extract_monitor_index` returns `none` rather than that integer, because
`str::parse::<usize>` rejects values above `usize::MAX`. -/
theorem c1_overflow_counterexample :
    overflowDigits ≠ [] ∧ overflowDigits.all Char.isDigit = true ∧
    digitsToNat overflowDigits = 2 ^ 64 ∧
    rfind overflowAdapter opMark = some 0 ∧
    rfind overflowAdapter clMark = some 22 ∧
    extract_monitor_index overflowAdapter = none := by
  refine ⟨by decide, by decide, by decide, by decide, by decide, by decide⟩

/-- The adapter string of the spec example with a nonempty free-text head. -/
def amdAdapterHead : String := "AMD Radeon RX 5700 XT"

/-- Witness for claim C1: the amended theorem applied to the two examples
of the spec, `(#7)` and `AMD Radeon RX 5700 XT(#0)`. -/
theorem c1_extract_rightmost_witness :
    extract_monitor_index (([] : List Char) ++ '(' :: '#' :: (['7'] ++ ')' :: [])) =
      some (digitsToNat ['7']) ∧
    extract_monitor_index (amdAdapterHead.data ++ '(' :: '#' :: (['0'] ++ ')' :: [])) =
      some (digitsToNat ['0']) := by
  constructor
  · exact c1_extract_rightmost [] ['7'] [] (by decide) (by decide) (by rfl)
      (by rfl) (by decide)
  · exact c1_extract_rightmost amdAdapterHead.data ['0'] [] (by decide)
      (by decide) (by rfl) (by rfl) (by decide)

/-- Claim C3: when the string has no `(#` at all, or no `)` at all, or the
rightmost `)` sits before the end of the rightmost `(#` marker (inconsistent
bounds, `stop < start + 2`), `extract_monitor_index` returns `none` — and,
being a total function, it never fails fatally.  By `rfind_none_drop`,
`rfind s opMark = none` states exactly that `s` contains no `(#`. -/
theorem c3_extract_not_found (s : List Char) :
    (rfind s opMark = none → extract_monitor_index s = none) ∧
    (rfind s clMark = none → extract_monitor_index s = none) ∧
    (∀ start stop, rfind s opMark = some start → rfind s clMark = some stop →
      stop < start + 2 → extract_monitor_index s = none) := by
  refine ⟨?_, ?_, ?_⟩
  · intro h
    unfold extract_monitor_index
    rw [h]
  · intro h
    unfold extract_monitor_index
    rw [h]
    cases rfind s opMark <;> rfl
  · intro start stop hop hcl hlt
    unfold extract_monitor_index
    rw [hop, hcl]
    have hget : strGet s (start + 2) stop = none := by
      unfold strGet
      rw [if_neg]
      intro hc
      omega
    show (match strGet s (start + 2) stop with
      | none => none
      | some substr => parseUsize substr) = none
    rw [hget]

/-- The plain-text example of the spec, containing no marker at all. -/
def garbageStr : String := "garbage"

/-- A string whose only `)` lies before its only `(#`. -/
def strayCloseStr : String := ")x(#"

/-- A string with a `(#` marker but no `)` anywhere. -/
def openOnlyStr : String := "(#"

/-- Witness for claim C3: all three branches at concrete inputs — `garbage`
(no `(#`), `(#` (no `)`), and `)x(#` (the rightmost `)` precedes the
marker). -/
theorem c3_extract_not_found_witness :
    extract_monitor_index garbageStr.data = none ∧
    extract_monitor_index openOnlyStr.data = none ∧
    extract_monitor_index strayCloseStr.data = none := by
  refine ⟨?_, ?_, ?_⟩
  · exact (c3_extract_not_found garbageStr.data).1 (by decide)
  · exact (c3_extract_not_found openOnlyStr.data).2.1 (by decide)
  · exact (c3_extract_not_found strayCloseStr.data).2.2 2 0 (by decide)
      (by decide) (by decide)

/-- A slice that is not shaped as a `usize` numeral fails to parse. -/
theorem parseUsize_none_of_shape (s : List Char) (h : usizeShape s = false) :
    parseUsize s = none := by
  unfold usizeShape at h
  unfold parseUsize
  rw [h]
  rfl

/-- The adapter string `(#+7)`, whose group content starts with a plus
sign. -/
def plusAdapter : List Char := ['(', '#', '+', '7', ')']

/-- Claim C4, counterexample: in `(#+7)` the substring strictly between the
rightmost `(#` and the rightmost `)` is `+7`, which contains non-digit
content, yet `extract_monitor_index` returns `some 7` instead of the
claimed "not found", because `str::parse::<usize>` accepts one leading plus
sign. -/
theorem c4_plus_counterexample :
    rfind plusAdapter opMark = some 0 ∧ rfind plusAdapter clMark = some 4 ∧
    strGet plusAdapter 2 4 = some ['+', '7'] ∧
    (['+', '7'].all Char.isDigit) = false ∧
    extract_monitor_index plusAdapter = some 7 := by
  refine ⟨by decide, by decide, by decide, by decide, by decide⟩

/-- Claim C4 (amended): whenever the slice strictly between the rightmost
`(#` marker and the rightmost `)` exists but is not shaped as an accepted
`usize` numeral — empty, or anything other than an optional leading plus
sign followed by one or more digits — `extract_monitor_index` returns
`none`. -/
theorem c4_shape_not_found (s : List Char) (start stop : Nat)
    (sub : List Char) (hop : rfind s opMark = some start)
    (hcl : rfind s clMark = some stop)
    (hget : strGet s (start + 2) stop = some sub)
    (hshape : usizeShape sub = false) : extract_monitor_index s = none := by
  unfold extract_monitor_index
  rw [hop, hcl]
  show (match strGet s (start + 2) stop with
    | none => none
    | some substr => parseUsize substr) = none
  rw [hget]
  exact parseUsize_none_of_shape sub hshape

/-- The adapter string `(#)` with an empty group. -/
def emptyGroupAdapter : List Char := ['(', '#', ')']

/-- Witness for claim C4: the amended theorem applied to the spec example
`(#)`, whose slice is empty. -/
theorem c4_shape_not_found_witness :
    extract_monitor_index emptyGroupAdapter = none :=
  c4_shape_not_found emptyGroupAdapter 0 2 [] (by decide) (by decide)
    (by decide) (by decide)

/-- Claim C9: the parsing logic is total on every string.  Each position a
successful `rfind` returns carries a genuine in-bounds occurrence of its
pattern (so the checked slice is fed well-formed indices), and
`extract_monitor_index`, a total function by construction, always returns
`none` or `some n` — the model needs no abort constructor because the
source reaches no `unwrap` and no unchecked indexing between lines 98
and 112. -/
theorem c9_parser_total (s : List Char) :
    (match rfind s opMark with
     | some i => i + opMark.length ≤ s.length ∧
         opMark.isPrefixOf (s.drop i) = true
     | none => True) ∧
    (match rfind s clMark with
     | some j => j + clMark.length ≤ s.length ∧
         clMark.isPrefixOf (s.drop j) = true
     | none => True) ∧
    (extract_monitor_index s = none ∨ ∃ n, extract_monitor_index s = some n) := by
  refine ⟨?_, ?_, ?_⟩
  · cases h : rfind s opMark with
    | none => trivial
    | some i =>
      have hs := rfind_spec s opMark i h
      have hl := isPrefixOf_length_le _ _ hs.2
      rw [List.length_drop] at hl
      have h1 := hs.1
      exact ⟨by omega, hs.2⟩
  · cases h : rfind s clMark with
    | none => trivial
    | some j =>
      have hs := rfind_spec s clMark j h
      have hl := isPrefixOf_length_le _ _ hs.2
      rw [List.length_drop] at hl
      have h1 := hs.1
      exact ⟨by omega, hs.2⟩
  · cases he : extract_monitor_index s with
    | none => exact Or.inl rfl
    | some n => exact Or.inr ⟨n, rfl⟩

/-- An ini file with no entries at all. -/
def emptyIni : IniFile := ⟨[]⟩

/-- Raw local value selecting auto-detection. -/
def strNeg1 : String := "-1"

/-- Raw local value of the explicit-index example. -/
def strThree : String := "3"

/-- A raw local value that is not an integer. -/
def strAbc : String := "abc"

/-- Local config whose `screenshot.screen` value is `-1`. -/
def localIniNeg1 : IniFile := ⟨[(some sectScreenshot, keyScreen, strNeg1)]⟩

/-- Local config whose `screenshot.screen` value is `3`. -/
def localIniThree : IniFile := ⟨[(some sectScreenshot, keyScreen, strThree)]⟩

/-- Local config whose `screenshot.screen` value is the non-integer `abc`. -/
def localIniAbc : IniFile := ⟨[(some sectScreenshot, keyScreen, strAbc)]⟩

/-- Claim C2, counterexample: with local value `-1` and a state in which the
documents directory cannot be determined, the Resolver does not return 0
with a diagnostic — `poe_config_path().unwrap()` on main.rs line 27 makes
the program abort. -/
theorem c2_docdir_counterexample :
    parseI32 (get_from_or localIniNeg1 (some sectScreenshot) keyScreen
      defaultScreenStr).data = some (-1) ∧
    resolve_screen_id (some localIniNeg1) false true (some emptyIni) =
      RunResult.crash := by
  refine ⟨by decide, by decide⟩

/-- Claim C2 (amended): with local value `-1`, only the missing-file case
degrades softly — the Resolver then returns 0 after its diagnostics.  When
the documents directory cannot be determined, or the file exists but
cannot be parsed as INI, the respective `unwrap` aborts the program
instead. -/
theorem c2_soft_fallback_amended (ini : IniFile) (pe : Bool)
    (pl : Option IniFile)
    (hv : parseI32 (get_from_or ini (some sectScreenshot) keyScreen
      defaultScreenStr).data = some (-1)) :
    resolve_screen_id (some ini) false pe pl = RunResult.crash ∧
    resolve_screen_id (some ini) true false pl =
      RunResult.ok (0, [Diag.poePathMissing, Diag.autoDetectFallback]) ∧
    resolve_screen_id (some ini) true true none = RunResult.crash := by
  refine ⟨?_, ?_, ?_⟩ <;>
    simp [resolve_screen_id, localScreenId, hv,
      active_monitor_number_from_poe_config]

/-- Witness for claim C2 (amended), at the concrete local config
`screenshot.screen = -1`: the documents-directory failure aborts, the
missing file falls back to 0 with the two diagnostics, and the unparsable
file aborts. -/
theorem c2_soft_fallback_amended_witness :
    resolve_screen_id (some localIniNeg1) false true (some emptyIni) =
      RunResult.crash ∧
    resolve_screen_id (some localIniNeg1) true false (some emptyIni) =
      RunResult.ok (0, [Diag.poePathMissing, Diag.autoDetectFallback]) ∧
    resolve_screen_id (some localIniNeg1) true true none =
      RunResult.crash := by
  have h := c2_soft_fallback_amended localIniNeg1 true (some emptyIni)
    (by decide)
  exact ⟨(c2_soft_fallback_amended localIniNeg1 true (some emptyIni)
    (by decide)).1, h.2.1, h.2.2⟩

/-- Claim C5: any parsed local value other than `-1` is returned as-is,
with no diagnostics, no range validation, and no dependence on the state
of the external configuration (which is universally quantified here and
never consulted). -/
theorem c5_explicit_value (ini : IniFile) (v : Int) (dd pe : Bool)
    (pl : Option IniFile)
    (hv : parseI32 (get_from_or ini (some sectScreenshot) keyScreen
      defaultScreenStr).data = some v) (hne : v ≠ -1) :
    resolve_screen_id (some ini) dd pe pl = RunResult.ok (v, []) := by
  simp [resolve_screen_id, localScreenId, hv, hne]

/-- Witness for claim C5: local value `3` resolves to `3` in a state where
the external config exists and is loadable. -/
theorem c5_explicit_value_witness :
    resolve_screen_id (some localIniThree) true true (some emptyIni) =
      RunResult.ok (3, []) :=
  c5_explicit_value localIniThree 3 true true (some emptyIni) (by decide)
    (by decide)

/-- Claim C6, counterexample: a local config whose `screenshot.screen`
value is the corrupt string `abc` does not degrade to the default 0 — the
`parse::<i32>().unwrap()` on main.rs line 21 aborts the program. -/
theorem c6_corrupt_counterexample :
    iniLookup localIniAbc (some sectScreenshot) keyScreen = some strAbc ∧
    parseI32 strAbc.data = none ∧
    resolve_screen_id (some localIniAbc) true true (some emptyIni) =
      RunResult.crash := by
  refine ⟨by decide, by decide, by decide⟩

/-- Claim C6 (amended): a missing or unreadable local config file, or a
loadable file without the `screenshot.screen` option, silently resolves to
the default 0; but a present option whose value does not parse as `i32`
makes the program abort rather than degrade. -/
theorem c6_missing_defaults (dd pe : Bool) (pl : Option IniFile) :
    resolve_screen_id none dd pe pl = RunResult.ok (0, []) ∧
    (∀ ini : IniFile, iniLookup ini (some sectScreenshot) keyScreen = none →
      resolve_screen_id (some ini) dd pe pl = RunResult.ok (0, [])) := by
  constructor
  · simp [resolve_screen_id, localScreenId]
  · intro ini h
    have hdef : get_from_or ini (some sectScreenshot) keyScreen
        defaultScreenStr = defaultScreenStr := by
      simp [get_from_or, h]
    have hp : parseI32 defaultScreenStr.data = some 0 := by decide
    simp [resolve_screen_id, localScreenId, hdef, hp]

/-- Witness for claim C6 (amended): a missing local file and a loadable
but empty local file both resolve to 0 with no diagnostics. -/
theorem c6_missing_defaults_witness :
    resolve_screen_id none true true (some emptyIni) =
      RunResult.ok (0, []) ∧
    resolve_screen_id (some emptyIni) true true (some emptyIni) =
      RunResult.ok (0, []) :=
  ⟨(c6_missing_defaults true true (some emptyIni)).1,
   (c6_missing_defaults true true (some emptyIni)).2 emptyIni (by decide)⟩

/-- Claim C7: local value `-1` with a determined documents directory but a
non-existent external file resolves to 0, and among the printed lines the
fallback diagnostic appears exactly once (the other line is the
path-missing notice). -/
theorem c7_fallback_once (ini : IniFile) (pl : Option IniFile)
    (hv : parseI32 (get_from_or ini (some sectScreenshot) keyScreen
      defaultScreenStr).data = some (-1)) :
    resolve_screen_id (some ini) true false pl =
      RunResult.ok (0, [Diag.poePathMissing, Diag.autoDetectFallback]) ∧
    List.count Diag.autoDetectFallback
      [Diag.poePathMissing, Diag.autoDetectFallback] = 1 := by
  constructor
  · simp [resolve_screen_id, localScreenId, hv,
      active_monitor_number_from_poe_config]
  · decide

/-- Witness for claim C7, at the concrete local config
`screenshot.screen = -1`. -/
theorem c7_fallback_once_witness :
    resolve_screen_id (some localIniNeg1) true false (some emptyIni) =
      RunResult.ok (0, [Diag.poePathMissing, Diag.autoDetectFallback]) ∧
    List.count Diag.autoDetectFallback
      [Diag.poePathMissing, Diag.autoDetectFallback] = 1 :=
  c7_fallback_once localIniNeg1 (some emptyIni) (by decide)

/-- Claim C8: whenever the resolved id is at least the number of
enumerated monitors (of which there is at least one; the bounds
`id < 2 ^ 31` and `count < 2 ^ 64` are the `i32` and `usize` ranges of the
respective variables), the capture step reports the out-of-range error
citing the valid ids 0 to `count - 1` and skips the capture — it never
indexes the monitor list. -/
theorem c8_out_of_range_report (id : Int) (count : Nat) (h1 : 0 < count)
    (h2 : (count : Int) ≤ id) (h3 : id < 2 ^ 31) (h4 : count < 2 ^ 64) :
    capture_step id count = CaptureOutcome.outOfRange 0 (count - 1) := by
  have e64n : (2 : Nat) ^ 64 = 18446744073709551616 := by norm_num
  have e64 : (2 : Int) ^ 64 = 18446744073709551616 := by norm_num
  have e31 : (2 : Int) ^ 31 = 2147483648 := by norm_num
  unfold capture_step usize_of_i32
  rw [e64, e64n]
  rw [e31] at h3
  have hmod : id % 18446744073709551616 = id := by omega
  rw [hmod]
  have hc : count ≤ id.toNat := by omega
  rw [if_pos hc]
  have : (count + (18446744073709551616 - 1)) % 18446744073709551616 =
      count - 1 := by
    rw [e64n] at h4
    omega
  rw [this]

/-- Witness for claim C8: resolved id 5 with 2 monitors is reported
against the valid range 0 to 1. -/
theorem c8_out_of_range_report_witness :
    capture_step 5 2 = CaptureOutcome.outOfRange 0 1 :=
  c8_out_of_range_report 5 2 (by decide) (by decide) (by decide) (by decide)

/-- Claim C10: a negative resolved id (any value in the `i32` range below
0; `-1` never reaches the capture step but is covered too) casts, via
sign-extending `as usize`, to `id + 2 ^ 64 ≥ 2 ^ 63`, which exceeds every
possible monitor-list length (Rust vectors of non-empty elements hold
fewer than `2 ^ 63` entries), so the out-of-range branch is taken and
`screens[screen_id as usize]` is never executed with a negative id. -/
theorem c10_negative_id_safe (id : Int) (count : Nat)
    (h1 : -(2 ^ 31) ≤ id) (h2 : id < 0) (h3 : count < 2 ^ 63) :
    2 ^ 63 ≤ usize_of_i32 id ∧
    capture_step id count =
      CaptureOutcome.outOfRange 0 ((count + (2 ^ 64 - 1)) % 2 ^ 64) := by
  have e64 : (2 : Int) ^ 64 = 18446744073709551616 := by norm_num
  have e63n : (2 : Nat) ^ 63 = 9223372036854775808 := by norm_num
  have e31 : (2 : Int) ^ 31 = 2147483648 := by norm_num
  rw [e31] at h1
  rw [e63n] at h3
  have hx : 2 ^ 63 ≤ usize_of_i32 id := by
    unfold usize_of_i32
    rw [e64, e63n]
    omega
  refine ⟨hx, ?_⟩
  unfold capture_step
  have hc : count ≤ usize_of_i32 id := by
    rw [e63n] at hx
    omega
  rw [if_pos hc]

/-- Witness for claim C10: resolved id -2 with 2 monitors takes the
out-of-range branch. -/
theorem c10_negative_id_safe_witness :
    2 ^ 63 ≤ usize_of_i32 (-2) ∧
    capture_step (-2) 2 =
      CaptureOutcome.outOfRange 0 ((2 + (2 ^ 64 - 1)) % 2 ^ 64) :=
  c10_negative_id_safe (-2) 2 (by decide) (by decide) (by decide)
